import Mathlib

/-!
Shallow embedding of `dace/libraries/blas/nodes/gemm.py`: the GEMM library
node, its structural validation, batch-dimension detection, the option-map
swap normalization, and the three lowerings (pure, MKL, cuBLAS).

Python integers and symbolic dimension sizes are embedded as `Nat`; Python
exceptions become an explicit `Err` result in `Except`; Python locals that
may be unassigned (`NameError`) or `None` are embedded as `Option`.
-/

namespace DaceGemm

/-- Python exceptions raised by the embedded code.  `typeError` in particular
models `len(None)` (`TypeError: object of type NoneType has no len()`), and
`nameError` models reading a local variable that was never assigned. -/
inductive Err where
  | valueError (msg : String)
  | typeError (msg : String)
  | syntaxError (msg : String)
  | nameError (msg : String)
deriving DecidableEq, Repr

/-- `dace.StorageType` members used by the file. -/
inductive StorageType where
  | Default
  | CPU_Heap
  | CPU_Pinned
  | GPU_Global
  | GPU_Shared
  | Register
deriving DecidableEq, Repr

/-- Element types relevant to the file (the numpy / dace scalar types that the
lowerings dispatch on). -/
inductive DType where
  | float16
  | float32
  | float64
  | complex64
  | complex128
  | int32
deriving DecidableEq, Repr

/-- `dtype.is_complex()` / membership in `[np.complex64, np.complex128]`:
both sides of `_is_complex` agree on this for element types. -/
def DType.is_complex : DType → Bool
  | .complex64 => true
  | .complex128 => true
  | _ => false

/-- `DTYPE_TO_TYPECLASS[dtype].to_string()` — the dace type-class name of each
numpy element type (external table, standard dace names). -/
def DType.name : DType → String
  | .float16 => "float16"
  | .float32 => "float32"
  | .float64 => "float64"
  | .complex64 => "complex64"
  | .complex128 => "complex128"
  | .int32 => "int32"

/-- Precision rank used to embed `np.result_type` promotion (external numpy
behaviour; an `int32` promotes to 64-bit when mixed with an inexact type). -/
def DType.prec : DType → Nat
  | .float16 => 16
  | .float32 => 32
  | .float64 => 64
  | .complex64 => 32
  | .complex128 => 64
  | .int32 => 64

/-- `np.result_type(a, b).type` for the element types above (external numpy
type-promotion; only its value as a type tag matters to the lowering). -/
def result_type (a b : DType) : DType :=
  if a = b then a
  else if a.is_complex || b.is_complex then
    (if max a.prec b.prec ≤ 32 then .complex64 else .complex128)
  else if max a.prec b.prec ≤ 16 then .float16
  else if max a.prec b.prec ≤ 32 then .float32
  else .float64

/-- The Python runtime type of a numeric scalar value, as tested by
`_is_complex(type(value))`: plain `complex` is *not* in
`[np.complex64, np.complex128]` and has no `is_complex` attribute, so only
the numpy complex scalar types test complex there. -/
inductive PyNumType where
  | int
  | float
  | cplx
  | npComplex64
  | npComplex128
deriving DecidableEq, Repr

/-- A Python numeric scalar: its runtime type tag and its numeric value
(real and imaginary part; `im = 0` for the non-complex types). -/
structure Scalar where
  ty : PyNumType
  re : Rat
  im : Rat
deriving DecidableEq, Repr

/-- Python `value == 1.0` (complex with zero imaginary part compares equal
to a real). -/
def Scalar.eqOne (s : Scalar) : Bool := s.re = 1 && s.im = 0

/-- Python `value == 0`. -/
def Scalar.eqZero (s : Scalar) : Bool := s.re = 0 && s.im = 0

/-- `_is_complex` applied to an element type (`hasattr(dtype, "is_complex")`
branch, or membership in `[np.complex64, np.complex128]`). -/
def is_complex_dtype (dtype : DType) : Bool := dtype.is_complex

/-- `_is_complex(type(value))`: a Python type object has no `is_complex`
attribute, so this is membership of `type(value)` in
`[np.complex64, np.complex128]`. -/
def is_complex_pytype : PyNumType → Bool
  | .npComplex64 => true
  | .npComplex128 => true
  | _ => false

/-- Rendering of a scalar into the text placed inside `dace.<type>(...)`
(the `{}`-format of the Python value). -/
def Scalar.pyRepr (s : Scalar) : String :=
  match s.ty with
  | .cplx | .npComplex64 | .npComplex128 =>
      "(" ++ toString s.re ++ "+" ++ toString s.im ++ "j)"
  | _ => toString s.re

/-- `_cast_to_dtype_str(value, dtype)` (gemm.py lines 104-118).  Note the
guard raises when the element type *and* the scalar type are both complex,
even though its message speaks of a non-complex array. -/
def cast_to_dtype_str (value : Scalar) (dtype : DType) : Except Err String :=
  if is_complex_dtype dtype && is_complex_pytype value.ty then
    .error (.valueError "Cannot use complex beta with non-complex array")
  else if is_complex_dtype dtype then
    .ok ("dace." ++ dtype.name ++ "(" ++ toString value.re ++ ", " ++
         toString value.im ++ ")")
  else
    .ok ("dace." ++ dtype.name ++ "(" ++ value.pyRepr ++ ")")

/-- The dictionary returned by `_get_batchmm_opts` when a batch is
detected: strides for a, b, c and the batch size. -/
structure BatchOpts where
  sa : Nat
  sb : Nat
  sc : Nat
  b : Nat
deriving DecidableEq, Repr

/-- Python truthiness of the optional batch-size local `batch` (`None` and
`0` are falsy). -/
def batchTruthy (batch : Option Nat) : Bool := batch.getD 0 ≠ 0

/-- Python truthiness of `c_shape` (both `None` and an empty shape are
falsy). -/
def cShapeTruthy (cShape : Option (List Nat)) : Bool := !(cShape.getD []).isEmpty

/-- `_get_batchmm_opts(a_shape, a_strides, b_shape, b_strides, c_shape,
c_strides)` (gemm.py lines 14-51).  Returns `none` for the empty dictionary
(no batch). -/
def get_batchmm_opts (a_shape a_strides b_shape b_strides : List Nat)
    (c_shape : Option (List Nat)) (c_strides : List Nat) :
    Except Err (Option BatchOpts) :=
  if a_shape.length > 3 ∨ b_shape.length > 3 ∨
      (cShapeTruthy c_shape ∧ (c_shape.getD []).length > 3) then
    .error (.valueError
      "Tensor dimensions too large for (batched) matrix multiplication")
  else if a_shape.length ≤ 2 ∧ b_shape.length ≤ 2 then
    .ok none
  else
    let batch : Option Nat := none
    let stride_a : Nat := 0
    let stride_b : Nat := 0
    let stride_c : Nat := 0
    let (batch, stride_a) :=
      if a_shape.length = 3 then (some (a_shape.getD 0 0), a_strides.getD 0 0)
      else (batch, stride_a)
    if b_shape.length = 3 ∧ batchTruthy batch ∧
        batch.getD 0 ≠ b_shape.getD 0 0 then
      .error (.valueError "Batch size mismatch for matrix multiplication")
    else
      let (batch, stride_b) :=
        if b_shape.length = 3 then (some (b_shape.getD 0 0), b_strides.getD 0 0)
        else (batch, stride_b)
      if cShapeTruthy c_shape ∧ (c_shape.getD []).length = 3 ∧
          batchTruthy batch ∧ batch.getD 0 ≠ (c_shape.getD []).getD 0 0 then
        .error (.valueError "Batch size mismatch for matrix multiplication")
      else
        let (batch, stride_c) :=
          if cShapeTruthy c_shape ∧ (c_shape.getD []).length = 3 then
            (some ((c_shape.getD []).getD 0 0), c_strides.getD 0 0)
          else (batch, stride_c)
        match batch with
        | none => .ok none
        | some b => .ok (some ⟨stride_a, stride_b, stride_c, b⟩)

/-! ### Gemm.validate -/

/-- An input edge as seen by `Gemm.validate`: the destination connector name
and the squeezed size of the memlet's subset (`dc(memlet.subset).squeeze();
subset.size()`). -/
structure InEdge where
  conn : String
  size : List Nat
deriving DecidableEq, Repr

/-- The graph neighbourhood of a Gemm node that `validate` inspects: its
input edges and the squeezed subset sizes of its output edges. -/
structure GemmCtx where
  inEdges : List InEdge
  outSizes : List (List Nat)
deriving DecidableEq, Repr

/-- The `for _, _, _, dst_conn, memlet in state.in_edges(self)` loop of
`validate`: the locals `size0`, `size1` start unassigned (`none` here means
a `NameError` on read) and `size2` starts as Python `None`. -/
def scanSizes (edges : List InEdge) :
    Option (List Nat) × Option (List Nat) × Option (List Nat) :=
  edges.foldl
    (fun acc e =>
      if e.conn = "_a" then (some e.size, acc.2.1, acc.2.2)
      else if e.conn = "_b" then (acc.1, some e.size, acc.2.2)
      else if e.conn = "_c" then (acc.1, acc.2.1, some e.size)
      else acc)
    (none, none, none)

/-- `Gemm.validate(self, sdfg, state)` (gemm.py lines 490-531).  The check
`len(size0) != 2 or len(size1) != 2 or len(size2) != 2` evaluates left to
right: an unassigned `size0`/`size1` raises `NameError`, and `size2` still
being `None` (no `_c` edge) raises `TypeError` from `len(None)`. -/
def validate (g : GemmCtx) : Except Err Unit :=
  if g.inEdges.length ≠ 2 ∧ g.inEdges.length ≠ 3 then
    .error (.valueError "Expected 2 or 3 inputs to gemm")
  else
    match scanSizes g.inEdges with
    | (size0?, size1?, size2?) =>
      if g.outSizes.length ≠ 1 then
        .error (.valueError "Expected exactly one output from matrix-matrix product")
      else
        match size0? with
        | none => .error (.nameError "size0")
        | some size0 =>
          if size0.length ≠ 2 then
            .error (.valueError "matrix-matrix product only supported on matrices")
          else
            match size1? with
            | none => .error (.nameError "size1")
            | some size1 =>
              if size1.length ≠ 2 then
                .error (.valueError "matrix-matrix product only supported on matrices")
              else
                match size2? with
                | none => .error (.typeError "object of type NoneType has no len()")
                | some size2 =>
                  if size2.length ≠ 2 then
                    .error (.valueError "matrix-matrix product only supported on matrices")
                  else if size0.getD 1 0 ≠ size1.getD 0 0 then
                    .error (.valueError
                      "Inputs to matrix-matrix product must agree in the k-dimension")
                  else
                    let size3 := g.outSizes.getD 0 []
                    if size3.length ≠ 2 then
                      .error (.valueError "matrix-matrix product only supported on matrices")
                    else if size3 ≠ [size0.getD 0 0, size1.getD 1 0] then
                      .error (.valueError
                        "Output to matrix-matrix product must agree in the m and n dimensions")
                    else if size2 ≠ size3 then
                      .error (.valueError "Sizes of input and output C-matrix do not match")
                    else
                      .ok ()

/-! ### Option-map swap normalization (`_get_codegen_gemm_opts`) -/

/-- The fields of the codegen option map that the swap step touches. -/
structure CodegenOpts where
  lda : String
  ldb : String
  x : String
  y : String
  ta : String
  tb : String
  M : String
  N : String
deriving DecidableEq, Repr

/-- The body of `if opt['swap']:` in `_get_codegen_gemm_opts` (gemm.py lines
74-80): exchanges lda/ldb, x/y, ta/tb, M/N, and — when a batch was detected —
the sa/sb batch strides. -/
def applySwap (o : CodegenOpts) (bopt : Option BatchOpts) :
    CodegenOpts × Option BatchOpts :=
  (⟨o.ldb, o.lda, o.y, o.x, o.tb, o.ta, o.N, o.M⟩,
   match bopt with
   | none => none
   | some bo => some ⟨bo.sb, bo.sa, bo.sc, bo.b⟩)

/-! ### MKL lowering (`ExpandGemmMKL.expansion`) -/

/-- Modelled from the spec: `to_blastype` lives in
`dace/libraries/blas/blas_helpers.py`, which is not part of the given
sources.  Per the spec it "selects a numeric-type-specific BLAS routine
name": it maps each supported element type to its BLAS letter
(H/S/D/C/Z; the cuBLAS lowering relies on `H` for float16) and fails for
any other type. -/
def to_blastype : DType → Except Err String
  | .float16 => .ok "H"
  | .float32 => .ok "S"
  | .float64 => .ok "D"
  | .complex64 => .ok "C"
  | .complex128 => .ok "Z"
  | _ => .error (.typeError "Type not supported in BLAS operations")

/-- The type-dependent choices of `ExpandGemmMKL.expansion` (gemm.py lines
275-291): routine name and the alpha/beta constant literals. -/
structure MKLCall where
  func : String
  alpha : String
  beta : String
deriving DecidableEq, Repr

/-- The type-dispatch prefix of `ExpandGemmMKL.expansion`:
`func = to_blastype(dtype.type).lower() + 'gemm'` followed by the
`if dtype == ...` chain selecting alpha/beta literals. -/
def mkl_select (dtype : DType) : Except Err MKLCall :=
  match to_blastype dtype with
  | .error e => .error e
  | .ok letterStr =>
    let func := letterStr.toLower ++ "gemm"
    if dtype = .float32 then .ok ⟨func, "1.0f", "0.0f"⟩
    else if dtype = .float64 then .ok ⟨func, "1.0", "0.0"⟩
    else if dtype = .complex64 then
      .ok ⟨func, "dace::blas::BlasConstants::Get().Complex64Pone()",
           "dace::blas::BlasConstants::Get().Complex64Zero()"⟩
    else if dtype = .complex128 then
      .ok ⟨func, "dace::blas::BlasConstants::Get().Complex128Pone()",
           "dace::blas::BlasConstants::Get().Complex128Zero()"⟩
    else
      .error (.valueError ("Unsupported type for BLAS dot product: " ++ dtype.name))

/-! ### cuBLAS lowering: device staging (`ExpandGemmCuBLAS.expansion`) -/

/-- A data descriptor registered in the staging nested SDFG
(`nsdfg.add_datadesc`): name, shape, storage, transient flag. -/
structure DataDecl where
  name : String
  shape : List Nat
  storage : StorageType
  transient : Bool
deriving DecidableEq, Repr

/-- The staging nested SDFG built when some operand is neither `GPU_Global`
nor `CPU_Pinned`: data descriptors, plain copy edges between access nodes
(`add_nedge`), and the edges wired into the tasklet's connectors. -/
structure StagingGraph where
  descs : List DataDecl
  copyEdges : List (String × String)
  taskletIn : List (String × String)
  taskletOut : List (String × String)
deriving DecidableEq, Repr

/-- The value returned by `ExpandGemmCuBLAS.expansion` after the tasklet is
built: either the bare tasklet or the staging nested SDFG wrapped around
it. -/
inductive CublasResult where
  | bare
  | staged (g : StagingGraph)
deriving DecidableEq, Repr

/-- The tail of `ExpandGemmCuBLAS.expansion` (gemm.py lines 408-443): given
the resolved descriptors of `_a`, `_b`, `_c` (their shapes and storages),
either return the bare tasklet or build the staging subgraph. -/
def cublas_stage (ashape : List Nat) (astorage : StorageType)
    (bshape : List Nat) (bstorage : StorageType)
    (cshape : List Nat) (cstorage : StorageType) : CublasResult :=
  if (astorage ≠ .GPU_Global ∧ astorage ≠ .CPU_Pinned) ∨
      (bstorage ≠ .GPU_Global ∧ bstorage ≠ .CPU_Pinned) ∨
      (cstorage ≠ .GPU_Global ∧ cstorage ≠ .CPU_Pinned) then
    .staged
      { descs := [⟨"_a", ashape, astorage, false⟩,
                  ⟨"_a_gpu", ashape, .GPU_Global, true⟩,
                  ⟨"_b", bshape, bstorage, false⟩,
                  ⟨"_b_gpu", bshape, .GPU_Global, true⟩,
                  ⟨"_c", cshape, cstorage, false⟩,
                  ⟨"_c_gpu", cshape, .GPU_Global, true⟩],
        copyEdges := [("_a", "_a_gpu"), ("_b", "_b_gpu"), ("_c_gpu", "_c")],
        taskletIn := [("_a_gpu", "_a"), ("_b_gpu", "_b")],
        taskletOut := [("_c", "_c_gpu")] }
  else
    .bare

/-! ### Pure lowering (`ExpandGemmPure.make_sdfg`) -/

/-- One `(edge, outer_array, shape)` triple returned by
`_get_matmul_inputs`: the operand's outer array descriptor (shape, element
type, storage). -/
structure MatmulInput where
  shape : List Nat
  dtype : DType
  storage : StorageType
deriving DecidableEq, Repr

/-- The static node parameters read by `make_sdfg`. -/
structure GemmNode where
  transA : Bool
  transB : Bool
  alpha : Scalar
  beta : Scalar
deriving DecidableEq, Repr

/-- An array declared in the generated SDFG (`sdfg.add_array` /
`sdfg.add_temp_transient`). -/
structure ArrayDecl where
  name : String
  shape : List Nat
  dtype : DType
  storage : StorageType
  transient : Bool
deriving DecidableEq, Repr

/-- The optional bias-add stage (`_Add_` mapped tasklet). -/
structure AddStage where
  program : String
  cIndex : String
  tmpSource : String
  target : String
deriving DecidableEq, Repr

/-- The generated pure-lowering SDFG, reduced to the structure the claims
speak about: the declared arrays, the target of the `gemm_init` map, the
memlet index strings and program of the `_GEMM_` map together with the data
it writes, and the optional `_Add_` stage. -/
structure PureSDFG where
  arrays : List ArrayDecl
  initTarget : String
  mulAIndex : String
  mulBIndex : String
  mulProgram : String
  mulTarget : String
  addStage : Option AddStage
deriving DecidableEq, Repr

/-- Lines 170-174 of `make_sdfg`: the `_GEMM_` tasklet body, casting alpha
through `_cast_to_dtype_str` unless it equals 1. -/
def mul_program_of (alpha : Scalar) (dtype_a : DType) : Except Err String :=
  if alpha.eqOne then .ok "__out = __a * __b"
  else
    match cast_to_dtype_str alpha dtype_a with
    | .error e => .error e
    | .ok s => .ok ("__out = " ++ s ++ " * __a * __b")

/-- Lines 179-187 of `make_sdfg`: whether the bias-add stage is skipped
(`c_inputs is None or node.beta == 0`). -/
def skip_add (beta : Scalar) (c : Option MatmulInput) : Bool :=
  c.isNone || beta.eqZero

/-- Lines 161-168 and 183-184 of `make_sdfg`: the arrays declared in the
generated SDFG (`_a`, `_b`, optional `_c`, `_y`, and — when the bias stage
runs — the transient temporary), all with the common storage. -/
def arrays_of (beta : Scalar) (a b : MatmulInput) (c : Option MatmulInput)
    (shape_y : List Nat) (dtype_y : DType) : List ArrayDecl :=
  [ArrayDecl.mk "_a" a.shape a.dtype a.storage false,
   ArrayDecl.mk "_b" b.shape b.dtype a.storage false] ++
  (match c with
   | some ci => [ArrayDecl.mk "_c" ci.shape ci.dtype a.storage false]
   | none => []) ++
  [ArrayDecl.mk "_y" shape_y dtype_y a.storage false] ++
  (if skip_add beta c then []
   else [ArrayDecl.mk "__tmp0" shape_y dtype_y a.storage true])

/-- Lines 222-251 of `make_sdfg`: the optional `_Add_` stage — cast beta,
pick the broadcast index for `_c`, or fail. -/
def add_stage_of (beta : Scalar) (c : Option MatmulInput) (dtype_a : DType)
    (M N : Nat) (mulOut : String) : Except Err (Option AddStage) :=
  match c with
  | none => .ok none
  | some ci =>
    if beta.eqZero then .ok none
    else
      match cast_to_dtype_str beta dtype_a with
      | .error e => .error e
      | .ok betaStr =>
        let addProgram := "__y = (" ++ betaStr ++ " * __c) + __tmp"
        if ci.shape = [M, N] then
          .ok (some ⟨addProgram, "__i0, __i1", mulOut, "_y"⟩)
        else if ci.shape = [1, N] then
          .ok (some ⟨addProgram, "0, __i1", mulOut, "_y"⟩)
        else if ci.shape = [M, 1] then
          .ok (some ⟨addProgram, "__i0, 0", mulOut, "_y"⟩)
        else if ci.shape = [N] then
          .ok (some ⟨addProgram, "__i1", mulOut, "_y"⟩)
        else
          .error (.valueError "Could not broadcast input _c")

/-- `ExpandGemmPure.make_sdfg(node, parent_state, parent_sdfg)` (gemm.py
lines 126-256), with the `_get_matmul_inputs` results passed in directly.
Statements are embedded in source order, so an earlier `raise` wins. -/
def make_sdfg (node : GemmNode) (a b : MatmulInput) (c : Option MatmulInput) :
    Except Err PureSDFG :=
  let dtype_y := result_type a.dtype b.dtype
  let trans_shape_a := cond node.transA a.shape.reverse a.shape
  let trans_shape_b := cond node.transB b.shape.reverse b.shape
  if trans_shape_a.length ≠ 2 ∨ trans_shape_b.length ≠ 2 ∨
      trans_shape_a.getD 1 0 ≠ trans_shape_b.getD 0 0 then
    .error (.syntaxError "Matrix sizes must match")
  else
    let M := trans_shape_a.getD 0 0
    let N := trans_shape_b.getD 1 0
    if a.storage ≠ b.storage then
      .error (.valueError "Input matrices must have same storage")
    else
      match mul_program_of node.alpha a.dtype with
      | .error e => .error e
      | .ok mulProgram =>
        let mulOut := cond (skip_add node.beta c) "_y" "__tmp0"
        let mulAIndex := cond node.transA "__i2, __i0" "__i0, __i2"
        let mulBIndex := cond node.transB "__i1, __i2" "__i2, __i1"
        match add_stage_of node.beta c a.dtype M N mulOut with
        | .error e => .error e
        | .ok addStage =>
          .ok ⟨arrays_of node.beta a b c [M, N] dtype_y, mulOut, mulAIndex,
               mulBIndex, mulProgram, mulOut, addStage⟩

/-- `true` iff the embedded Python call returned normally. -/
def isOk {α : Type} (e : Except Err α) : Bool :=
  match e with
  | .ok _ => true
  | .error _ => false

/-- `true` iff the embedded Python call raised. -/
def isErr {α : Type} (e : Except Err α) : Bool :=
  match e with
  | .ok _ => false
  | .error _ => true

/-- The subgraph generated by the pure lowering for a plain (2,3) by (3,4)
product with alpha 1, beta 0 and no bias operand (used as a concrete
evaluation point). -/
def pure_g_example : PureSDFG :=
  ⟨[⟨"_a", [2, 3], .float32, .Default, false⟩,
    ⟨"_b", [3, 4], .float32, .Default, false⟩,
    ⟨"_y", [2, 4], .float32, .Default, false⟩],
   "_y", "__i0, __i2", "__i2, __i1", "__out = __a * __b", "_y", none⟩

/-! ### Claim theorems -/

/-- C1: contrary to the claim, a graph state with exactly 2 input edges
(`_a`, `_b`, no `_c`) and 1 output edge, with well-matched rank-2 sizes,
never passes `Gemm.validate`: `size2` is still `None`, so the rank check
`len(size0) != 2 or len(size1) != 2 or len(size2) != 2` evaluates
`len(None)` and raises `TypeError` — the code contradicts its own
`size2 is not None` guard further down and its acceptance of 2 inputs. -/
theorem C1_two_input_validate_raises (m k n : Nat) :
    validate ⟨[⟨"_a", [m, k]⟩, ⟨"_b", [k, n]⟩], [[m, n]]⟩ =
      .error (.typeError "object of type NoneType has no len()") := by
  simp [validate, scanSizes]

/-- C2: the guard of `_cast_to_dtype_str` is inverted: it raises exactly
when the element type *and* the scalar's type are both complex (here a
`np.complex64` scalar with a `complex64` element type), yet accepts a
complex scalar paired with a non-complex element type — the opposite of
its own error message and of the claim. -/
theorem C2_cast_guard_inverted :
    cast_to_dtype_str ⟨.npComplex64, 1, 2⟩ .complex64 =
        .error (.valueError "Cannot use complex beta with non-complex array")
    ∧ cast_to_dtype_str ⟨.npComplex64, 1, 2⟩ .float32 =
        .ok "dace.float32((1+2j))" := by
  exact ⟨rfl, rfl⟩

/-- C3 counterexample: with transA = True, an `_a` operand of squeezed size
(3,2) against a (3,4) `_b` (with `_c` and output (2,4)) does *not*
validate: `Gemm.validate` never reads `transA` and rejects the raw sizes
with a K-dimension mismatch, contrary to the claim. -/
theorem C3_validate_ignores_transA :
    validate ⟨[⟨"_a", [3, 2]⟩, ⟨"_b", [3, 4]⟩, ⟨"_c", [2, 4]⟩], [[2, 4]]⟩ =
      .error (.valueError
        "Inputs to matrix-matrix product must agree in the k-dimension") := by
  rfl

/-- C3 amended: only the lowering treats A as transposed; validation checks
the raw squeezed sizes.  With transA = True: `_a` (3,2) against `_b` (3,4)
fails validation with a K-dimension mismatch even though it lowers to a
(2,4) product, while `_a` (2,3) against `_b` (3,4) passes validation and
then fails in `make_sdfg` with a shape-mismatch `SyntaxError`. -/
theorem C3_amended_trans_handling :
    validate ⟨[⟨"_a", [3, 2]⟩, ⟨"_b", [3, 4]⟩, ⟨"_c", [2, 4]⟩], [[2, 4]]⟩ =
      .error (.valueError
        "Inputs to matrix-matrix product must agree in the k-dimension")
    ∧ validate ⟨[⟨"_a", [2, 3]⟩, ⟨"_b", [3, 4]⟩, ⟨"_c", [2, 4]⟩], [[2, 4]]⟩ = .ok ()
    ∧ make_sdfg ⟨true, false, ⟨.int, 1, 0⟩, ⟨.int, 0, 0⟩⟩
        ⟨[2, 3], .float32, .Default⟩ ⟨[3, 4], .float32, .Default⟩ none =
        .error (.syntaxError "Matrix sizes must match")
    ∧ make_sdfg ⟨true, false, ⟨.int, 1, 0⟩, ⟨.int, 0, 0⟩⟩
        ⟨[3, 2], .float32, .Default⟩ ⟨[3, 4], .float32, .Default⟩ none =
        .ok ⟨[⟨"_a", [3, 2], .float32, .Default, false⟩,
              ⟨"_b", [3, 4], .float32, .Default, false⟩,
              ⟨"_y", [2, 4], .float32, .Default, false⟩],
             "_y", "__i2, __i0", "__i2, __i1", "__out = __a * __b", "_y", none⟩ := by
  exact ⟨rfl, rfl, rfl, rfl⟩

/-- C4 counterexample: a rank-3 `_c` together with rank-2 A and B yields
"no batch" (the early return only inspects A and B), contrary to the
claim that a rank-3 C contributes its leading dimension as batch size. -/
theorem C4_rank3_c_ignored :
    get_batchmm_opts [2, 2] [2, 1] [2, 2] [2, 1] (some [5, 2, 2]) [4, 2, 1] =
      .ok none := by
  rfl

/-- C5 counterexample: two rank-3 operands whose leading dimensions differ
(0 vs 3) do *not* raise: the leading dimension 0 recorded from A is falsy
in `if batch and batch != b_shape[0]`, so the mismatch check is skipped
and B's leading dimension silently wins. -/
theorem C5_zero_batch_masks_mismatch :
    [(0 : Nat), 1, 1].length = 3 ∧ [(3 : Nat), 1, 1].length = 3
    ∧ [(0 : Nat), 1, 1].getD 0 0 ≠ [(3 : Nat), 1, 1].getD 0 0
    ∧ get_batchmm_opts [0, 1, 1] [1, 1, 1] [3, 1, 1] [1, 1, 1] none [] =
        .ok (some ⟨1, 1, 0, 3⟩) := by
  exact ⟨rfl, rfl, by decide, rfl⟩

/-- C8: the swap normalization of `_get_codegen_gemm_opts` is self-inverse:
applying it twice restores every swapped field (lda/ldb, x/y, ta/tb, M/N
and, when a batch is present, the sa/sb strides). -/
theorem C8_swap_involutive (o : CodegenOpts) (bopt : Option BatchOpts) :
    applySwap (applySwap o bopt).1 (applySwap o bopt).2 = (o, bopt) := by
  cases bopt <;> rfl

/-- C9: the MKL lowering succeeds exactly for float32, float64, complex64
and complex128 (float16 in particular is rejected), and for the supported
types it prefixes `gemm` with the lower-cased BLAS letter and picks the
type-specific one/zero constants. -/
theorem C9_mkl_type_dispatch :
    (∀ dtype : DType,
      isOk (mkl_select dtype) = true ↔
        (dtype = .float32 ∨ dtype = .float64 ∨
         dtype = .complex64 ∨ dtype = .complex128))
    ∧ isErr (mkl_select .float16) = true
    ∧ to_blastype .float32 = .ok "S"
    ∧ to_blastype .float64 = .ok "D"
    ∧ to_blastype .complex64 = .ok "C"
    ∧ to_blastype .complex128 = .ok "Z"
    ∧ mkl_select .float32 = .ok ⟨"S".toLower ++ "gemm", "1.0f", "0.0f"⟩
    ∧ mkl_select .float64 = .ok ⟨"D".toLower ++ "gemm", "1.0", "0.0"⟩
    ∧ mkl_select .complex64 =
        .ok ⟨"C".toLower ++ "gemm", "dace::blas::BlasConstants::Get().Complex64Pone()",
             "dace::blas::BlasConstants::Get().Complex64Zero()"⟩
    ∧ mkl_select .complex128 =
        .ok ⟨"Z".toLower ++ "gemm", "dace::blas::BlasConstants::Get().Complex128Pone()",
             "dace::blas::BlasConstants::Get().Complex128Zero()"⟩ := by
  refine ⟨fun dtype => by cases dtype <;> simp [mkl_select, to_blastype, isOk],
          by rfl, rfl, rfl, rfl, rfl, ?_, ?_, ?_, ?_⟩ <;> rfl

/-- Every array declared by the pure lowering carries the common storage of A. -/
theorem arrays_of_storage (beta : Scalar) (a b : MatmulInput)
    (c : Option MatmulInput) (shape_y : List Nat) (dtype_y : DType) :
    ∀ arr ∈ arrays_of beta a b c shape_y dtype_y, arr.storage = a.storage := by
  intro arr harr
  unfold arrays_of at harr
  cases c <;> split at harr <;> aesop

/-- When the bias stage is skipped, no declared array is transient. -/
theorem arrays_of_transient (beta : Scalar) (a b : MatmulInput)
    (c : Option MatmulInput) (shape_y : List Nat) (dtype_y : DType)
    (hskip : skip_add beta c = true) :
    ∀ arr ∈ arrays_of beta a b c shape_y dtype_y, arr.transient = false := by
  intro arr harr
  unfold arrays_of at harr
  rw [hskip] at harr
  cases c <;> aesop

/-- When the bias stage runs, the transient temporary is among the declared arrays. -/
theorem arrays_of_tmp (beta : Scalar) (a b : MatmulInput)
    (c : Option MatmulInput) (shape_y : List Nat) (dtype_y : DType)
    (hskip : skip_add beta c = false) :
    ∃ arr ∈ arrays_of beta a b c shape_y dtype_y,
      arr.name = "__tmp0" ∧ arr.transient = true := by
  refine ⟨ArrayDecl.mk "__tmp0" shape_y dtype_y a.storage true, ?_, rfl, rfl⟩
  unfold arrays_of
  rw [hskip]
  cases c <;> simp

/-- With no `_c` input or beta equal to 0, no bias stage is generated. -/
theorem add_stage_of_skip (beta : Scalar) (c : Option MatmulInput)
    (dtype_a : DType) (M N : Nat) (mulOut : String)
    (h : skip_add beta c = true) :
    add_stage_of beta c dtype_a M N mulOut = .ok none := by
  cases c with
  | none => rfl
  | some ci =>
    simp only [skip_add, Option.isNone_some, Bool.false_or] at h
    simp [add_stage_of, h]

/-- A generated bias stage always reads its accumulated input from `mul_out`. -/
theorem add_stage_of_some (beta : Scalar) (c : Option MatmulInput)
    (dtype_a : DType) (M N : Nat) (mulOut : String) (st : AddStage)
    (h : add_stage_of beta c dtype_a M N mulOut = .ok (some st)) :
    st.tmpSource = mulOut := by
  cases c with
  | none => simp [add_stage_of] at h
  | some ci =>
    unfold add_stage_of at h
    repeat' split at h
    all_goals simp_all
    all_goals (cases h; rfl)

/-- With a `_c` input and nonzero beta, a successful lowering generates a bias stage. -/
theorem add_stage_of_isSome (beta : Scalar) (c : Option MatmulInput)
    (dtype_a : DType) (M N : Nat) (mulOut : String) (r : Option AddStage)
    (hskip : skip_add beta c = false)
    (h : add_stage_of beta c dtype_a M N mulOut = .ok r) :
    ∃ st, r = some st := by
  cases c with
  | none => simp [skip_add] at hskip
  | some ci =>
    simp only [skip_add, Option.isNone_some, Bool.false_or] at hskip
    unfold add_stage_of at h
    rw [hskip] at h
    repeat' split at h
    all_goals (try (cases h))
    all_goals first
      | exact ⟨_, rfl⟩
      | simp_all

/-- The stage-skipping test, unfolded to the claims' phrasing. -/
theorem skip_add_iff (beta : Scalar) (c : Option MatmulInput) :
    skip_add beta c = true ↔ (c = none ∨ beta.eqZero = true) := by
  cases c <;> simp [skip_add]

/-- Characterization of a successful run of `make_sdfg`: the storages matched, every declared array shares A's storage, and the multiply target and bias stage are governed by `skip_add`. -/
theorem make_sdfg_ok_cases (node : GemmNode) (a b : MatmulInput)
    (c : Option MatmulInput) (g : PureSDFG)
    (h : make_sdfg node a b c = .ok g) :
    a.storage = b.storage
    ∧ (∀ arr ∈ g.arrays, arr.storage = a.storage)
    ∧ g.mulTarget = cond (skip_add node.beta c) "_y" "__tmp0"
    ∧ (skip_add node.beta c = true →
        g.addStage = none ∧ ∀ arr ∈ g.arrays, arr.transient = false)
    ∧ (skip_add node.beta c = false →
        (∃ st, g.addStage = some st ∧ st.tmpSource = "__tmp0")
        ∧ ∃ arr ∈ g.arrays, arr.name = "__tmp0" ∧ arr.transient = true) := by
  obtain ⟨tA, tB, alpha, beta⟩ := node
  cases tA <;> cases tB <;>
  · simp only [make_sdfg, Bool.cond_true, Bool.cond_false] at h
    split at h
    case isTrue => cases h
    case isFalse hshape =>
    split at h
    case isTrue => cases h
    case isFalse hst =>
    split at h
    case h_1 => cases h
    case h_2 mulProgram hmp =>
    split at h
    case h_1 => cases h
    case h_2 addStage hadd =>
    cases h
    push_neg at hst
    refine ⟨hst, arrays_of_storage _ _ _ _ _ _, rfl, fun hskip => ?_, fun hskip => ?_⟩
    · rw [hskip, Bool.cond_true] at hadd
      rw [add_stage_of_skip _ _ _ _ _ _ hskip] at hadd
      cases hadd
      exact ⟨rfl, arrays_of_transient _ _ _ _ _ _ hskip⟩
    · rw [hskip, Bool.cond_false] at hadd
      obtain ⟨st, rfl⟩ := add_stage_of_isSome _ _ _ _ _ _ _ hskip hadd
      exact ⟨⟨st, rfl, add_stage_of_some _ _ _ _ _ _ _ hadd⟩,
             arrays_of_tmp _ _ _ _ _ _ hskip⟩

/-- Negation of the stage-skipping test, unfolded to the claims' phrasing. -/
theorem skip_add_false_iff (beta : Scalar) (c : Option MatmulInput) :
    skip_add beta c = false ↔ (c.isSome = true ∧ beta.eqZero = false) := by
  cases c <;> simp [skip_add]

/-- C7: in the pure lowering, whenever beta is 0 or no `_c` input is
present, the generated subgraph declares no transient temporary and the
multiply-accumulate stage writes directly into `_y`; the bias-add stage is
generated exactly when `_c` is present and beta is nonzero, and then the
multiply stage writes the freshly declared transient temporary that the
bias stage consumes. -/
theorem C7_pure_temp (node : GemmNode) (a b : MatmulInput)
    (c : Option MatmulInput) (g : PureSDFG)
    (h : make_sdfg node a b c = .ok g) :
    ((c = none ∨ node.beta.eqZero = true) →
      g.mulTarget = "_y" ∧ g.addStage = none ∧
      ∀ arr ∈ g.arrays, arr.transient = false)
    ∧ (g.addStage.isSome = true ↔ (c.isSome = true ∧ node.beta.eqZero = false))
    ∧ (c.isSome = true → node.beta.eqZero = false →
      g.mulTarget = "__tmp0"
      ∧ (∃ arr ∈ g.arrays, arr.name = "__tmp0" ∧ arr.transient = true)
      ∧ ∃ st, g.addStage = some st ∧ st.tmpSource = "__tmp0") := by
  obtain ⟨hstor, harrs, hmt, hskipT, hskipF⟩ := make_sdfg_ok_cases node a b c g h
  refine ⟨?_, ?_, ?_⟩
  · intro hc
    have hs : skip_add node.beta c = true := (skip_add_iff _ _).2 hc
    obtain ⟨hnone, htr⟩ := hskipT hs
    exact ⟨by rw [hmt, hs, Bool.cond_true], hnone, htr⟩
  · constructor
    · intro hsome
      by_cases hs : skip_add node.beta c = true
      · rw [(hskipT hs).1] at hsome
        cases hsome
      · exact (skip_add_false_iff _ _).1 (Bool.not_eq_true _ ▸ Bool.of_not_eq_true hs)
    · intro hcb
      have hs : skip_add node.beta c = false := (skip_add_false_iff _ _).2 hcb
      obtain ⟨⟨st, hsteq, _⟩, _⟩ := hskipF hs
      rw [hsteq]
      rfl
  · intro hc hb
    have hs : skip_add node.beta c = false := (skip_add_false_iff _ _).2 ⟨hc, hb⟩
    obtain ⟨⟨st, hsteq, hsrc⟩, htmp⟩ := hskipF hs
    exact ⟨by rw [hmt, hs, Bool.cond_false], htmp, st, hsteq, hsrc⟩

/-- Witness for C7 at a concrete input with no `_c` operand. -/
theorem C7_pure_temp_witness :
    make_sdfg ⟨false, false, ⟨.int, 1, 0⟩, ⟨.int, 0, 0⟩⟩
      ⟨[2, 3], .float32, .Default⟩ ⟨[3, 4], .float32, .Default⟩ none =
      .ok pure_g_example
    ∧ pure_g_example.mulTarget = "_y" ∧ pure_g_example.addStage = none :=
  ⟨rfl,
   ((C7_pure_temp ⟨false, false, ⟨.int, 1, 0⟩, ⟨.int, 0, 0⟩⟩
      ⟨[2, 3], .float32, .Default⟩ ⟨[3, 4], .float32, .Default⟩ none
      pure_g_example rfl).1 (Or.inl rfl)).1,
   ((C7_pure_temp ⟨false, false, ⟨.int, 1, 0⟩, ⟨.int, 0, 0⟩⟩
      ⟨[2, 3], .float32, .Default⟩ ⟨[3, 4], .float32, .Default⟩ none
      pure_g_example rfl).1 (Or.inl rfl)).2.1⟩

/-- C10: the pure lowering requires its two inputs to share a storage
location — differing storages make `make_sdfg` raise (so no subgraph is
produced), and on success every declared array (inputs, output, temporary)
uses the common storage. -/
theorem C10_pure_storage (node : GemmNode) (a b : MatmulInput)
    (c : Option MatmulInput) :
    (a.storage ≠ b.storage → isErr (make_sdfg node a b c) = true)
    ∧ (∀ g, make_sdfg node a b c = .ok g →
        ∀ arr ∈ g.arrays, arr.storage = a.storage) := by
  constructor
  · intro hne
    cases hr : make_sdfg node a b c with
    | error e => rfl
    | ok g => exact absurd (make_sdfg_ok_cases node a b c g hr).1 hne
  · intro g hg
    exact (make_sdfg_ok_cases node a b c g hg).2.1

/-- Witness for C10 at a concrete mixed-storage input. -/
theorem C10_pure_storage_witness :
    isErr (make_sdfg ⟨false, false, ⟨.int, 1, 0⟩, ⟨.int, 0, 0⟩⟩
      ⟨[2, 3], .float32, .CPU_Heap⟩ ⟨[3, 4], .float32, .GPU_Global⟩ none) = true := by
  exact (C10_pure_storage _ _ _ _).1 (by decide)

/-- C6: the cuBLAS lowering returns the bare routine-call tasklet exactly
when the three resolved operands are all `GPU_Global` or `CPU_Pinned`
resident; otherwise it returns the staging subgraph with a GPU-resident
transient mirror per operand, host-to-device copies for the two inputs,
the tasklet rewired to the device mirrors, and a device-to-host copy for
the output. -/
theorem C6_cublas_staging (ashape bshape cshape : List Nat)
    (sa sb sc : StorageType) :
    (cublas_stage ashape sa bshape sb cshape sc = .bare ↔
      ((sa = .GPU_Global ∨ sa = .CPU_Pinned)
       ∧ (sb = .GPU_Global ∨ sb = .CPU_Pinned)
       ∧ (sc = .GPU_Global ∨ sc = .CPU_Pinned)))
    ∧ (¬((sa = .GPU_Global ∨ sa = .CPU_Pinned)
         ∧ (sb = .GPU_Global ∨ sb = .CPU_Pinned)
         ∧ (sc = .GPU_Global ∨ sc = .CPU_Pinned)) →
       cublas_stage ashape sa bshape sb cshape sc = .staged
         { descs := [⟨"_a", ashape, sa, false⟩,
                     ⟨"_a_gpu", ashape, .GPU_Global, true⟩,
                     ⟨"_b", bshape, sb, false⟩,
                     ⟨"_b_gpu", bshape, .GPU_Global, true⟩,
                     ⟨"_c", cshape, sc, false⟩,
                     ⟨"_c_gpu", cshape, .GPU_Global, true⟩],
           copyEdges := [("_a", "_a_gpu"), ("_b", "_b_gpu"), ("_c_gpu", "_c")],
           taskletIn := [("_a_gpu", "_a"), ("_b_gpu", "_b")],
           taskletOut := [("_c", "_c_gpu")] }) := by
  unfold cublas_stage
  split_ifs with hc
  · constructor
    · constructor
      · intro h
        cases h
      · intro hall
        exact absurd hc (by tauto)
    · intro _
      rfl
  · constructor
    · constructor
      · intro _
        tauto
      · intro _
        rfl
    · intro hall
      exact absurd hc (by tauto)

/-- Witness for C6 at a concrete host-resident A operand. -/
theorem C6_cublas_staging_witness :
    cublas_stage [2, 3] .CPU_Heap [3, 4] .GPU_Global [2, 4] .GPU_Global = .staged
      { descs := [⟨"_a", [2, 3], .CPU_Heap, false⟩,
                  ⟨"_a_gpu", [2, 3], .GPU_Global, true⟩,
                  ⟨"_b", [3, 4], .GPU_Global, false⟩,
                  ⟨"_b_gpu", [3, 4], .GPU_Global, true⟩,
                  ⟨"_c", [2, 4], .GPU_Global, false⟩,
                  ⟨"_c_gpu", [2, 4], .GPU_Global, true⟩],
        copyEdges := [("_a", "_a_gpu"), ("_b", "_b_gpu"), ("_c_gpu", "_c")],
        taskletIn := [("_a_gpu", "_a"), ("_b_gpu", "_b")],
        taskletOut := [("_c", "_c_gpu")] } := by
  exact (C6_cublas_staging [2, 3] [3, 4] [2, 4] .CPU_Heap .GPU_Global .GPU_Global).2
    (by decide)

/-- Closed-form characterization of `_get_batchmm_opts`: the rank guard,
the early A/B-only no-batch return, the two (zero-maskable) mismatch
checks, and the returned strides and batch size. -/
theorem get_batchmm_opts_eq (as astr bs bstr : List Nat)
    (cs : Option (List Nat)) (cstr : List Nat) :
    get_batchmm_opts as astr bs bstr cs cstr =
      if 3 < as.length ∨ 3 < bs.length ∨
          (cShapeTruthy cs = true ∧ 3 < (cs.getD []).length) then
        .error (.valueError
          "Tensor dimensions too large for (batched) matrix multiplication")
      else if as.length ≤ 2 ∧ bs.length ≤ 2 then .ok none
      else if bs.length = 3 ∧ as.length = 3 ∧ as.getD 0 0 ≠ 0 ∧
          as.getD 0 0 ≠ bs.getD 0 0 then
        .error (.valueError "Batch size mismatch for matrix multiplication")
      else if cShapeTruthy cs = true ∧ (cs.getD []).length = 3 ∧
          (if bs.length = 3 then bs.getD 0 0 else as.getD 0 0) ≠ 0 ∧
          (if bs.length = 3 then bs.getD 0 0 else as.getD 0 0) ≠
            (cs.getD []).getD 0 0 then
        .error (.valueError "Batch size mismatch for matrix multiplication")
      else
        .ok (some ⟨if as.length = 3 then astr.getD 0 0 else 0,
                   if bs.length = 3 then bstr.getD 0 0 else 0,
                   if cShapeTruthy cs = true ∧ (cs.getD []).length = 3 then
                     cstr.getD 0 0 else 0,
                   if cShapeTruthy cs = true ∧ (cs.getD []).length = 3 then
                     (cs.getD []).getD 0 0
                   else if bs.length = 3 then bs.getD 0 0
                   else as.getD 0 0⟩) := by
  by_cases hA : 3 < as.length
  · simp_all [get_batchmm_opts, batchTruthy]
  by_cases hB : 3 < bs.length
  · simp_all [get_batchmm_opts, batchTruthy]
  by_cases hCt : cShapeTruthy cs = true
  · by_cases hC : 3 < (cs.getD []).length
    · simp_all [get_batchmm_opts, batchTruthy]
    · by_cases ha3 : as.length = 3 <;> by_cases hb3 : bs.length = 3
      · -- a rank 3, b rank 3
        by_cases hz1 : as.getD 0 0 = 0
        · by_cases hc3 : (cs.getD []).length = 3
          · by_cases hz2 : bs.getD 0 0 = 0
            · simp_all [get_batchmm_opts, batchTruthy]
            · by_cases hne2 : bs.getD 0 0 = (cs.getD []).getD 0 0
              · simp_all [get_batchmm_opts, batchTruthy]
              · simp_all [get_batchmm_opts, batchTruthy]
          · simp_all [get_batchmm_opts, batchTruthy]
        · by_cases hne1 : as.getD 0 0 = bs.getD 0 0
          · by_cases hc3 : (cs.getD []).length = 3
            · by_cases hz2 : bs.getD 0 0 = 0
              · simp_all [get_batchmm_opts, batchTruthy]
              · by_cases hne2 : bs.getD 0 0 = (cs.getD []).getD 0 0
                · simp_all [get_batchmm_opts, batchTruthy]
                · simp_all [get_batchmm_opts, batchTruthy]
            · simp_all [get_batchmm_opts, batchTruthy]
          · simp_all [get_batchmm_opts, batchTruthy]
      · -- a rank 3, b rank ≤ 2
        by_cases hz1 : as.getD 0 0 = 0
        · by_cases hc3 : (cs.getD []).length = 3
          · simp_all [get_batchmm_opts, batchTruthy]
          · simp_all [get_batchmm_opts, batchTruthy]
        · by_cases hc3 : (cs.getD []).length = 3
          · by_cases hne2 : as.getD 0 0 = (cs.getD []).getD 0 0
            · simp_all [get_batchmm_opts, batchTruthy]
            · simp_all [get_batchmm_opts, batchTruthy]
          · simp_all [get_batchmm_opts, batchTruthy]
      · -- a rank ≤ 2, b rank 3
        by_cases hz2 : bs.getD 0 0 = 0
        · by_cases hc3 : (cs.getD []).length = 3
          · simp_all [get_batchmm_opts, batchTruthy]
          · simp_all [get_batchmm_opts, batchTruthy]
        · by_cases hc3 : (cs.getD []).length = 3
          · by_cases hne2 : bs.getD 0 0 = (cs.getD []).getD 0 0
            · simp_all [get_batchmm_opts, batchTruthy]
            · simp_all [get_batchmm_opts, batchTruthy]
          · simp_all [get_batchmm_opts, batchTruthy]
      · -- both rank ≤ 2
        have h2 : as.length ≤ 2 ∧ bs.length ≤ 2 := by omega
        simp_all [get_batchmm_opts, batchTruthy]
  · -- c falsy
    by_cases ha3 : as.length = 3 <;> by_cases hb3 : bs.length = 3
    · by_cases hz1 : as.getD 0 0 = 0
      · simp_all [get_batchmm_opts, batchTruthy]
      · by_cases hne1 : as.getD 0 0 = bs.getD 0 0
        · simp_all [get_batchmm_opts, batchTruthy]
        · simp_all [get_batchmm_opts, batchTruthy]
    · simp_all [get_batchmm_opts, batchTruthy]
    · simp_all [get_batchmm_opts, batchTruthy]
    · have h2 : as.length ≤ 2 ∧ bs.length ≤ 2 := by omega
      simp_all [get_batchmm_opts, batchTruthy]

/-- C4 amended: batch detection returns "no batch" exactly when A and B
both have rank at most 2 — C's rank is ignored by the early return —
and otherwise (under agreeing leading dimensions) each rank-3 operand
contributes its leading stride, absent or low-rank operands defaulting
to 0, with the batch size taken from the contributing operands. -/
theorem C4_amended_batch_detection (as astr bs bstr : List Nat)
    (cs : Option (List Nat)) (cstr : List Nat)
    (ha : as.length ≤ 3) (hb : bs.length ≤ 3) (hc : (cs.getD []).length ≤ 3)
    (hab : as.length = 3 → bs.length = 3 → as.getD 0 0 = bs.getD 0 0)
    (hac : as.length = 3 → cShapeTruthy cs = true → (cs.getD []).length = 3 →
      as.getD 0 0 = (cs.getD []).getD 0 0)
    (hbc : bs.length = 3 → cShapeTruthy cs = true → (cs.getD []).length = 3 →
      bs.getD 0 0 = (cs.getD []).getD 0 0) :
    (get_batchmm_opts as astr bs bstr cs cstr = .ok none ↔
      (as.length ≤ 2 ∧ bs.length ≤ 2))
    ∧ (¬(as.length ≤ 2 ∧ bs.length ≤ 2) →
        get_batchmm_opts as astr bs bstr cs cstr = .ok (some
          ⟨if as.length = 3 then astr.getD 0 0 else 0,
           if bs.length = 3 then bstr.getD 0 0 else 0,
           if cShapeTruthy cs = true ∧ (cs.getD []).length = 3 then
             cstr.getD 0 0 else 0,
           if cShapeTruthy cs = true ∧ (cs.getD []).length = 3 then
             (cs.getD []).getD 0 0
           else if bs.length = 3 then bs.getD 0 0
           else as.getD 0 0⟩)) := by
  rw [get_batchmm_opts_eq]
  rw [if_neg (by push_neg; exact ⟨by omega, by omega, fun _ => by omega⟩)]
  by_cases h2 : as.length ≤ 2 ∧ bs.length ≤ 2
  · rw [if_pos h2]
    exact ⟨⟨fun _ => h2, fun _ => rfl⟩, fun hcon => absurd h2 hcon⟩
  · rw [if_neg h2]
    have hmm1 : ¬(bs.length = 3 ∧ as.length = 3 ∧ as.getD 0 0 ≠ 0 ∧
        as.getD 0 0 ≠ bs.getD 0 0) := by
      rintro ⟨hb3, ha3, _, hne⟩
      exact hne (hab ha3 hb3)
    rw [if_neg hmm1]
    have hmm2 : ¬(cShapeTruthy cs = true ∧ (cs.getD []).length = 3 ∧
        (if bs.length = 3 then bs.getD 0 0 else as.getD 0 0) ≠ 0 ∧
        (if bs.length = 3 then bs.getD 0 0 else as.getD 0 0) ≠
          (cs.getD []).getD 0 0) := by
      rintro ⟨hct, hc3, _, hne⟩
      by_cases hb3 : bs.length = 3
      · rw [if_pos hb3] at hne
        exact hne (hbc hb3 hct hc3)
      · rw [if_neg hb3] at hne
        have ha3 : as.length = 3 := by omega
        exact hne (hac ha3 hct hc3)
    rw [if_neg hmm2]
    exact ⟨⟨fun h => by simp at h, fun h => absurd h h2⟩, fun _ => rfl⟩

/-- Witness for C4 amended at a concrete rank-3 batched triple. -/
theorem C4_amended_witness :
    get_batchmm_opts [2, 3, 4] [12, 4, 1] [2, 4, 5] [20, 5, 1]
      (some [2, 3, 5]) [15, 5, 1] = .ok (some ⟨12, 20, 15, 2⟩) := by
  have h := (C4_amended_batch_detection [2, 3, 4] [12, 4, 1] [2, 4, 5] [20, 5, 1]
    (some [2, 3, 5]) [15, 5, 1] (by decide) (by decide) (by decide)
    (fun _ _ => by decide) (fun _ _ _ => by decide)
    (fun _ _ _ => by decide)).2 (by decide)
  simpa using h

/-- C5 amended: batch detection raises exactly when some operand has rank
greater than 3, or when a rank-3 operand's leading dimension differs from
the previously recorded batch size *and that recorded batch size is
nonzero* — a recorded 0 is falsy in Python and masks the mismatch check —
and with all ranks at most 3 and agreeing leading dimensions (including 0)
it returns normally. -/
theorem C5_amended_raise_conditions (as astr bs bstr : List Nat)
    (cs : Option (List Nat)) (cstr : List Nat) :
    (3 < as.length ∨ 3 < bs.length ∨
        (cShapeTruthy cs = true ∧ 3 < (cs.getD []).length) →
      get_batchmm_opts as astr bs bstr cs cstr = .error (.valueError
        "Tensor dimensions too large for (batched) matrix multiplication"))
    ∧ (as.length ≤ 3 → bs.length ≤ 3 → (cs.getD []).length ≤ 3 →
       (as.length = 3 → bs.length = 3 → as.getD 0 0 = bs.getD 0 0) →
       (as.length = 3 → cShapeTruthy cs = true → (cs.getD []).length = 3 →
         as.getD 0 0 = (cs.getD []).getD 0 0) →
       (bs.length = 3 → cShapeTruthy cs = true → (cs.getD []).length = 3 →
         bs.getD 0 0 = (cs.getD []).getD 0 0) →
       isOk (get_batchmm_opts as astr bs bstr cs cstr) = true)
    ∧ (as.length = 3 → bs.length = 3 → (cs.getD []).length ≤ 3 →
       as.getD 0 0 ≠ 0 → as.getD 0 0 ≠ bs.getD 0 0 →
       get_batchmm_opts as astr bs bstr cs cstr =
         .error (.valueError "Batch size mismatch for matrix multiplication"))
    ∧ (as.length ≤ 3 → bs.length ≤ 3 → ¬(as.length ≤ 2 ∧ bs.length ≤ 2) →
       cShapeTruthy cs = true → (cs.getD []).length = 3 →
       (as.length = 3 → bs.length = 3 → as.getD 0 0 = bs.getD 0 0) →
       (if bs.length = 3 then bs.getD 0 0 else as.getD 0 0) ≠ 0 →
       (if bs.length = 3 then bs.getD 0 0 else as.getD 0 0) ≠
         (cs.getD []).getD 0 0 →
       get_batchmm_opts as astr bs bstr cs cstr =
         .error (.valueError "Batch size mismatch for matrix multiplication"))
    ∧ (isErr (get_batchmm_opts as astr bs bstr cs cstr) = true →
       (3 < as.length ∨ 3 < bs.length ∨
        (cShapeTruthy cs = true ∧ 3 < (cs.getD []).length))
       ∨ (as.length = 3 ∧ bs.length = 3 ∧ as.getD 0 0 ≠ 0 ∧
          as.getD 0 0 ≠ bs.getD 0 0)
       ∨ (cShapeTruthy cs = true ∧ (cs.getD []).length = 3 ∧
          (if bs.length = 3 then bs.getD 0 0 else as.getD 0 0) ≠ 0 ∧
          (if bs.length = 3 then bs.getD 0 0 else as.getD 0 0) ≠
            (cs.getD []).getD 0 0)) := by
  refine ⟨?_, ?_, ?_, ?_, ?_⟩
  · intro h1
    rw [get_batchmm_opts_eq, if_pos h1]
  · intro ha hb hc hab hac hbc
    rw [get_batchmm_opts_eq]
    rw [if_neg (by push_neg; exact ⟨by omega, by omega, fun _ => by omega⟩)]
    by_cases h2 : as.length ≤ 2 ∧ bs.length ≤ 2
    · rw [if_pos h2]
      rfl
    · rw [if_neg h2]
      have hmm1 : ¬(bs.length = 3 ∧ as.length = 3 ∧ as.getD 0 0 ≠ 0 ∧
          as.getD 0 0 ≠ bs.getD 0 0) := by
        rintro ⟨hb3, ha3, _, hne⟩
        exact hne (hab ha3 hb3)
      rw [if_neg hmm1]
      have hmm2 : ¬(cShapeTruthy cs = true ∧ (cs.getD []).length = 3 ∧
          (if bs.length = 3 then bs.getD 0 0 else as.getD 0 0) ≠ 0 ∧
          (if bs.length = 3 then bs.getD 0 0 else as.getD 0 0) ≠
            (cs.getD []).getD 0 0) := by
        rintro ⟨hct, hc3, _, hne⟩
        by_cases hb3 : bs.length = 3
        · rw [if_pos hb3] at hne
          exact hne (hbc hb3 hct hc3)
        · rw [if_neg hb3] at hne
          have ha3 : as.length = 3 := by omega
          exact hne (hac ha3 hct hc3)
      rw [if_neg hmm2]
      rfl
  · intro ha3 hb3 hcr hz hne
    rw [get_batchmm_opts_eq]
    rw [if_neg (by push_neg; exact ⟨by omega, by omega, fun _ => by omega⟩)]
    rw [if_neg (by omega)]
    rw [if_pos ⟨hb3, ha3, hz, hne⟩]
  · intro ha hb hnot2 hct hc3 hab hz hne
    rw [get_batchmm_opts_eq]
    rw [if_neg (by push_neg; exact ⟨by omega, by omega, fun _ => by omega⟩)]
    rw [if_neg hnot2]
    have hmm1 : ¬(bs.length = 3 ∧ as.length = 3 ∧ as.getD 0 0 ≠ 0 ∧
        as.getD 0 0 ≠ bs.getD 0 0) := by
      rintro ⟨hb3, ha3, _, hne1⟩
      exact hne1 (hab ha3 hb3)
    rw [if_neg hmm1]
    rw [if_pos ⟨hct, hc3, hz, hne⟩]
  · intro herr
    rw [get_batchmm_opts_eq] at herr
    by_cases h1 : (3 < as.length ∨ 3 < bs.length ∨
        (cShapeTruthy cs = true ∧ 3 < (cs.getD []).length))
    · exact Or.inl h1
    rw [if_neg h1] at herr
    by_cases h2 : as.length ≤ 2 ∧ bs.length ≤ 2
    · rw [if_pos h2] at herr
      simp [isErr] at herr
    rw [if_neg h2] at herr
    by_cases h3 : (bs.length = 3 ∧ as.length = 3 ∧ as.getD 0 0 ≠ 0 ∧
        as.getD 0 0 ≠ bs.getD 0 0)
    · exact Or.inr (Or.inl ⟨h3.2.1, h3.1, h3.2.2⟩)
    rw [if_neg h3] at herr
    by_cases h4 : (cShapeTruthy cs = true ∧ (cs.getD []).length = 3 ∧
        (if bs.length = 3 then bs.getD 0 0 else as.getD 0 0) ≠ 0 ∧
        (if bs.length = 3 then bs.getD 0 0 else as.getD 0 0) ≠
          (cs.getD []).getD 0 0)
    · exact Or.inr (Or.inr h4)
    rw [if_neg h4] at herr
    simp [isErr] at herr

/-- Witness for C5 amended: a genuine nonzero-vs-nonzero mismatch raises. -/
theorem C5_amended_witness :
    get_batchmm_opts [2, 1, 1] [9, 1, 1] [5, 1, 1] [7, 1, 1] none [] =
      .error (.valueError "Batch size mismatch for matrix multiplication") :=
  (C5_amended_raise_conditions [2, 1, 1] [9, 1, 1] [5, 1, 1] [7, 1, 1]
    none []).2.2.1 rfl rfl (by decide) (by decide) (by decide)

end DaceGemm
